import Mathlib

/-!
Verification development for the `rust-microbenchmarks` repository.

Shallow embedding of the two source files:
* `src/main.rs`   — the serialized-rdtsc timing loop (`serialized_time`, `main`);
* `benches/benchmark.rs` — the criterion benchmark driver (`fibonacci`,
  the `NUM_THREADS_*` constants, and the spawn/collect/join-all benchmark
  bodies for OS threads and tokio tasks).

Machine integers are modelled as `Nat` with explicit `% 2^64` / checked
arithmetic where overflow matters; the hardware cycle counter and the
success of core pinning are environment parameters; spawned units of
concurrent work are modelled as a list of handles whose join outcomes are
`Except` values (an `error` outcome models a panic inside the unit).
-/

/-- The width bound of the `u64` machine type. -/
def U64_MOD : Nat := 2 ^ 64

/-- Checked `u64` subtraction: `none` models the arithmetic-overflow panic of
Rust `u64` subtraction when the subtrahend exceeds the minuend. -/
def u64_checked_sub (a b : Nat) : Option Nat :=
  if b ≤ a then some (a - b) else none

/-- Checked `u64` addition: `none` models the arithmetic-overflow panic when
the exact sum does not fit in 64 bits. -/
def u64_checked_add (a b : Nat) : Option Nat :=
  if a + b < U64_MOD then some (a + b) else none

/-- The x86-64 instructions issued by `serialized_time` in `src/main.rs`. -/
inductive Instr where
  | lfence : Instr
  | mfence : Instr
  | sfence : Instr
  | cpuid : Instr
  | rdtsc : Instr
deriving DecidableEq

/-- The instruction trace of `serialized_time` (`src/main.rs` lines 10-29),
read off the body top to bottom: `_mm_lfence; _mm_mfence; _mm_sfence;
__cpuid(0); _mm_lfence; _mm_mfence; _mm_sfence; _rdtsc(); _mm_lfence;
_mm_mfence; _mm_sfence; __cpuid(0); _mm_lfence; _mm_mfence; _mm_sfence`. -/
def serializedTimeTrace : List Instr :=
  [Instr.lfence, Instr.mfence, Instr.sfence,
   Instr.cpuid,
   Instr.lfence, Instr.mfence, Instr.sfence,
   Instr.rdtsc,
   Instr.lfence, Instr.mfence, Instr.sfence,
   Instr.cpuid,
   Instr.lfence, Instr.mfence, Instr.sfence]

/-- Model of `serialized_time` (`src/main.rs`): given the raw value the
hardware cycle counter holds at the `_rdtsc()` read, it executes
`serializedTimeTrace` and returns the `u64` counter value read in the
middle of the sequence. -/
def serialized_time (raw : Nat) : List Instr × Nat :=
  (serializedTimeTrace, raw % U64_MOD)

/-- The instruction sequence as the specification words it: three fences,
the serializing instruction, the three fences again, the counter read, then
the three fences and the serializing instruction once more — and nothing
after that.  Written from the spec sentence, to be compared with
`serializedTimeTrace`. -/
def specClaimedTrace : List Instr :=
  [Instr.lfence, Instr.mfence, Instr.sfence,
   Instr.cpuid,
   Instr.lfence, Instr.mfence, Instr.sfence,
   Instr.rdtsc,
   Instr.lfence, Instr.mfence, Instr.sfence,
   Instr.cpuid]

/-- `NUM_RUNS` constant of `src/main.rs`. -/
def NUM_RUNS : Nat := 100000

/-- Per-iteration measurement of `main` (`src/main.rs` lines 40-43): the
environment `tsc` gives the raw counter value at each successive hardware
read, iteration `i` performing reads `2*i` (start) and `2*i+1` (end); the
delta is the `u64` difference `end - start`. -/
def measuredDelta (tsc : Nat → Nat) (i : Nat) : Option Nat :=
  u64_checked_sub ((serialized_time (tsc (2 * i + 1))).2)
    ((serialized_time (tsc (2 * i))).2)

/-- The measurement loop of `main` run for `n` iterations: returns the
number of timestamp reads performed and, unless a `u64` operation
overflowed (which panics and aborts the loop), the accumulated
`total_difference`. -/
def mainLoop (tsc : Nat → Nat) : Nat → Nat × Option Nat
  | 0 => (0, some 0)
  | n + 1 =>
    match mainLoop tsc n with
    | (reads, none) => (reads, none)
    | (reads, some acc) =>
      match measuredDelta tsc n with
      | none => (reads + 2, none)
      | some d => (reads + 2, u64_checked_add acc d)

/-- What `main` prints on success. -/
structure MainOutput where
  printedTotal : Nat
  printedMean : Nat
deriving DecidableEq

/-- Diagnostic of the `assert!` at the top of `main` when core pinning
fails. -/
def PIN_FAILURE_MSG : String := "assertion failed: core_affinity set_for_current"

/-- Model of `main` (`src/main.rs` lines 33-48).  `pinOk` is whether
`core_affinity::set_for_current` on core id 0 succeeded; `tsc` is the
hardware counter environment.  Returns the printed output (or the panic
that aborted the process) together with the number of timestamp reads
performed. -/
def main_model (pinOk : Bool) (tsc : Nat → Nat) : Except String MainOutput × Nat :=
  if pinOk then
    match mainLoop tsc NUM_RUNS with
    | (reads, some total) =>
      (Except.ok ⟨total, total / NUM_RUNS⟩, reads)
    | (reads, none) => (Except.error "attempt to compute with overflow", reads)
  else
    (Except.error PIN_FAILURE_MSG, 0)

/-- Exact sum of the first `n` per-iteration deltas of the environment
`tsc` (each timestamp truncated to `u64` as `serialized_time` returns it). -/
def totalSum (tsc : Nat → Nat) (n : Nat) : Nat :=
  Finset.sum (Finset.range n) fun i => tsc (2 * i + 1) % U64_MOD - tsc (2 * i) % U64_MOD

/-- `fibonacci` from `benches/benchmark.rs` lines 19-25 (`black_box` is the
identity on values; in the fall-through arm `n ≥ 2`, so the `u64`
subtractions `n - 1` and `n - 2` are exact). -/
def fibonacci : Nat → Nat
  | 0 => 1
  | 1 => 1
  | n + 2 => fibonacci (n + 1) + fibonacci n

/-- Reference Fibonacci function, written from the claim's words:
`F(0) = 1`, `F(1) = 1`, `F(n) = F(n-1) + F(n-2)` in exact arithmetic. -/
def fibSpec : Nat → Nat
  | 0 => 1
  | 1 => 1
  | n + 2 => fibSpec (n + 1) + fibSpec n

/-- `FIB_N` constant of `benches/benchmark.rs`. -/
def FIB_N : Nat := 30

/-- `SLEEP_MS` constant of `benches/benchmark.rs`. -/
def SLEEP_MS : Nat := 25

/-- `NUM_THREADS_SMALL` (`benches/benchmark.rs` line 31) as a function of
the number of core ids returned by `core_affinity::get_core_ids()`:
`core_affinity::get_core_ids().unwrap().len() / 2`. -/
def NUM_THREADS_SMALL (coreCount : Nat) : Nat := coreCount / 2

/-- `NUM_THREADS_LARGE` (`benches/benchmark.rs` line 32):
`*NUM_THREADS_SMALL * 8`. -/
def NUM_THREADS_LARGE (coreCount : Nat) : Nat := NUM_THREADS_SMALL coreCount * 8

/-- `NUM_THREADS_HUGE` (`benches/benchmark.rs` line 33):
`*NUM_THREADS_SMALL * 256`. -/
def NUM_THREADS_HUGE (coreCount : Nat) : Nat := NUM_THREADS_SMALL coreCount * 256

/-- The concurrency levels of the benchmark matrix. -/
inductive ConcurrencyLevel where
  | single : ConcurrencyLevel
  | small : ConcurrencyLevel
  | large : ConcurrencyLevel
  | huge : ConcurrencyLevel
deriving DecidableEq

/-- The unit count each concurrency level maps to, for a detected core
count `c`: the `single …` benchmarks spawn one unit, the others spawn
`NUM_THREADS_SMALL` / `NUM_THREADS_LARGE` / `NUM_THREADS_HUGE` units. -/
def concurrencyCount (c : Nat) : ConcurrencyLevel → Nat
  | ConcurrencyLevel.single => 1
  | ConcurrencyLevel.small => NUM_THREADS_SMALL c
  | ConcurrencyLevel.large => NUM_THREADS_LARGE c
  | ConcurrencyLevel.huge => NUM_THREADS_HUGE c

/-- The claimed invariant: counts strictly increase across the enumeration
`Single < Small < Large < Huge`. -/
def countsStrictlyIncreasing (c : Nat) : Prop :=
  concurrencyCount c ConcurrencyLevel.single < concurrencyCount c ConcurrencyLevel.small ∧
  concurrencyCount c ConcurrencyLevel.small < concurrencyCount c ConcurrencyLevel.large ∧
  concurrencyCount c ConcurrencyLevel.large < concurrencyCount c ConcurrencyLevel.huge

instance (c : Nat) : Decidable (countsStrictlyIncreasing c) := by
  unfold countsStrictlyIncreasing; infer_instance

/-- The claimed invariant: every concurrency-level count is at least 1. -/
def countsAtLeastOne (c : Nat) : Prop :=
  1 ≤ concurrencyCount c ConcurrencyLevel.single ∧
  1 ≤ concurrencyCount c ConcurrencyLevel.small ∧
  1 ≤ concurrencyCount c ConcurrencyLevel.large ∧
  1 ≤ concurrencyCount c ConcurrencyLevel.huge

instance (c : Nat) : Decidable (countsAtLeastOne c) := by
  unfold countsAtLeastOne; infer_instance

/-- The kind of work a spawned unit performs. -/
inductive Workload where
  | computeBound : Workload
  | sleepBound : Workload
deriving DecidableEq

/-- The value a unit of the given workload produces when it runs to
completion: the compute-bound closures evaluate `fibonacci(FIB_N)`, the
sleep-bound closures sleep `SLEEP_MS` milliseconds and return unit
(modelled as `0`). -/
def runWorkload : Workload → Nat
  | Workload.computeBound => fibonacci FIB_N
  | Workload.sleepBound => 0

/-- A spawned unit of concurrent work (an OS-thread `JoinHandle` or a tokio
`JoinHandle`): its spawn index, its workload, and the outcome its join
reports — `ok` with the produced value when the unit ran to completion,
`error` when it terminated abnormally (panicked). -/
structure SpawnedUnit where
  id : Nat
  work : Workload
  outcome : Except String Nat

/-- Spawning one unit that runs its workload to completion. -/
def spawnUnit (w : Workload) (i : Nat) : SpawnedUnit :=
  ⟨i, w, Except.ok (runWorkload w)⟩

/-- The spawn phase of a group benchmark body:
`(0..count).map(|_| spawn(workload)).collect::<Vec<_>>()`. -/
def spawnGroup (count : Nat) (w : Workload) : List SpawnedUnit :=
  (List.range count).map (spawnUnit w)

/-- The join phase of a group benchmark body: joining every collected
handle and unwrapping each result, in order.  This models both the
OS-thread chain `.into_iter().map(|t| t.join().unwrap())` and the tokio
chain `join_all(tasks).await.into_iter().map(|res| res.unwrap())`: the
first `error` outcome propagates as a panic that aborts the whole
iteration, otherwise the list of all produced values is returned only once
every handle has been joined. -/
def joinAndUnwrapAll : List SpawnedUnit → Except String (List Nat)
  | [] => Except.ok []
  | u :: rest =>
    match u.outcome with
    | Except.error e => Except.error e
    | Except.ok v =>
      match joinAndUnwrapAll rest with
      | Except.error e => Except.error e
      | Except.ok vs => Except.ok (v :: vs)

/-- A whole group benchmark body (`benches/benchmark.rs`, e.g. lines 59-70
and 238-254): spawn `count` units of `w`, collect the handles, join and
unwrap all of them. -/
def spawn_and_join_group (count : Nat) (w : Workload) : Except String (List Nat) :=
  joinAndUnwrapAll (spawnGroup count w)

/-- The mixed-workload benchmark body (`benches/benchmark.rs` lines 256-283
and 285-312): spawn `computeCount` compute-bound units and `sleepCount`
sleep-bound units, chaining the two handle collections in the submission
order given by `computeFirst`, then join and unwrap all of them. -/
def spawn_mixed_group (computeCount sleepCount : Nat) (computeFirst : Bool) :
    Except String (List Nat) :=
  let work := spawnGroup computeCount Workload.computeBound
  let sleep := spawnGroup sleepCount Workload.sleepBound
  if computeFirst then joinAndUnwrapAll (work ++ sleep)
  else joinAndUnwrapAll (sleep ++ work)

/-! Claim theorems. -/

/-- C1 counterexample: `serialized_time` does not execute exactly the
claimed twelve-instruction sequence ending in the serializing instruction —
the source body ends with three further fence instructions after the final
`__cpuid(0)`. -/
theorem serialized_time_trace_ne_claimed :
    (serialized_time 0).1 ≠ specClaimedTrace := by
  decide

/-- C1 (amended): `serialized_time` executes exactly, in order, the three
fences, the CPU-identification serializing instruction, the three fences
again, the cycle-counter read, the three fences, the serializing
instruction once more, and finally the three fences once more; and it
returns the unsigned 64-bit counter value read in the middle of that
sequence. -/
theorem serialized_time_instruction_sequence (raw : Nat) :
    (serialized_time raw).1 =
      [Instr.lfence, Instr.mfence, Instr.sfence] ++ [Instr.cpuid] ++
      [Instr.lfence, Instr.mfence, Instr.sfence] ++ [Instr.rdtsc] ++
      [Instr.lfence, Instr.mfence, Instr.sfence] ++ [Instr.cpuid] ++
      [Instr.lfence, Instr.mfence, Instr.sfence] ∧
    (serialized_time raw).2 = raw % U64_MOD ∧
    (serialized_time raw).1.get? 7 = some Instr.rdtsc := by
  exact ⟨rfl, rfl, rfl⟩

/-- C2: in every measurement iteration of `main`, if the second timestamp
is at least the first, the `u64` subtraction `end - start` does not
underflow and the computed delta is the exact non-negative difference,
a valid `u64` value. -/
theorem measured_delta_no_underflow (tsc : Nat → Nat) (i : Nat)
    (h : (serialized_time (tsc (2 * i))).2 ≤ (serialized_time (tsc (2 * i + 1))).2) :
    measuredDelta tsc i =
      some ((serialized_time (tsc (2 * i + 1))).2 - (serialized_time (tsc (2 * i))).2) ∧
    (serialized_time (tsc (2 * i + 1))).2 - (serialized_time (tsc (2 * i))).2 < U64_MOD := by
  constructor
  · unfold measuredDelta u64_checked_sub
    simp [h]
  · have h2 : (serialized_time (tsc (2 * i + 1))).2 < U64_MOD := by
      unfold serialized_time
      exact Nat.mod_lt _ (by decide)
    omega

/-- C2 witness: the hypothesis holds and the delta is computed at the
concrete counter environment `tsc k = k` in iteration 0. -/
theorem measured_delta_no_underflow_witness :
    measuredDelta (fun k => k) 0 =
      some ((serialized_time ((fun k : Nat => k) (2 * 0 + 1))).2 -
        (serialized_time ((fun k : Nat => k) (2 * 0))).2) ∧
    (serialized_time ((fun k : Nat => k) (2 * 0 + 1))).2 -
      (serialized_time ((fun k : Nat => k) (2 * 0))).2 < U64_MOD :=
  measured_delta_no_underflow (fun k => k) 0 (by decide)

/-- C3: the concurrency-level constants are derived from the detected core
count (the number of logical core ids the affinity facility returns) as
`Small = coreCount / 2`, `Large = 8 * Small`, `Huge = 256 * Small`; in
particular for a detected core count of 16 they are 8, 64 and 2048. -/
theorem num_threads_derivation (c : Nat) :
    NUM_THREADS_SMALL c = c / 2 ∧
    NUM_THREADS_LARGE c = 8 * NUM_THREADS_SMALL c ∧
    NUM_THREADS_HUGE c = 256 * NUM_THREADS_SMALL c ∧
    NUM_THREADS_SMALL 16 = 8 ∧ NUM_THREADS_LARGE 16 = 64 ∧
    NUM_THREADS_HUGE 16 = 2048 := by
  refine ⟨rfl, ?_, ?_, by decide, by decide, by decide⟩
  · unfold NUM_THREADS_LARGE; omega
  · unfold NUM_THREADS_HUGE; omega

/-- C4 counterexample: for a detected core count of 1 (a value the
core-enumeration facility can return) the derived counts are not strictly
increasing and not all at least 1: `Small = 1 / 2 = 0`. -/
theorem counts_invariant_fails_at_one :
    ¬ (countsStrictlyIncreasing 1 ∧ countsAtLeastOne 1) := by
  decide

/-- C4 (amended): for every detected core count of at least 4, the derived
concurrency-level counts are strictly increasing across the enumeration
`Single < Small < Large < Huge` and every count is at least 1. -/
theorem counts_strictly_increasing_of_four_le (c : Nat) (h : 4 ≤ c) :
    countsStrictlyIncreasing c ∧ countsAtLeastOne c := by
  simp only [countsStrictlyIncreasing, countsAtLeastOne, concurrencyCount,
    NUM_THREADS_LARGE, NUM_THREADS_HUGE, NUM_THREADS_SMALL]
  omega

/-- C4 witness: the amended invariant holds at the concrete core count 16. -/
theorem counts_strictly_increasing_witness :
    countsStrictlyIncreasing 16 ∧ countsAtLeastOne 16 :=
  counts_strictly_increasing_of_four_le 16 (by decide)

/-- C8: if pinning the calling thread to logical core 0 fails at process
start, `main` aborts immediately with the assertion diagnostic, having
performed zero timestamp reads and zero measured iterations. -/
theorem pin_failure_aborts (tsc : Nat → Nat) :
    main_model false tsc = (Except.error PIN_FAILURE_MSG, 0) := by
  rfl

/-- Joining a group of units that all ran to completion yields exactly the
list of their workload results. -/
theorem joinAndUnwrapAll_map_spawnUnit (w : Workload) (ids : List Nat) :
    joinAndUnwrapAll (ids.map (spawnUnit w)) =
      Except.ok (ids.map fun _ => runWorkload w) := by
  induction ids with
  | nil => rfl
  | cons i rest ih => simp [joinAndUnwrapAll, spawnUnit, ih]

/-- Joining a concatenation of two groups that both join successfully
yields the concatenation of their result lists. -/
theorem joinAndUnwrapAll_append (l1 l2 : List SpawnedUnit) (r1 r2 : List Nat)
    (h1 : joinAndUnwrapAll l1 = Except.ok r1)
    (h2 : joinAndUnwrapAll l2 = Except.ok r2) :
    joinAndUnwrapAll (l1 ++ l2) = Except.ok (r1 ++ r2) := by
  induction l1 generalizing r1 with
  | nil =>
    simp only [joinAndUnwrapAll] at h1
    cases h1
    simpa using h2
  | cons u rest ih =>
    cases hu : u.outcome with
    | error e => rw [joinAndUnwrapAll, hu] at h1; cases h1
    | ok v =>
      rw [joinAndUnwrapAll, hu] at h1
      cases hr : joinAndUnwrapAll rest with
      | error e => rw [hr] at h1; cases h1
      | ok vs =>
        rw [hr] at h1
        cases h1
        rw [List.cons_append, joinAndUnwrapAll, hu, ih vs hr]
        rfl

/-- C5: for every unit count and every workload, the group benchmark body
spawns exactly `count` units (with spawn indices `0, …, count-1`), joins
every spawned handle, and returns only the fully-joined result list — one
completion per spawned unit, no handle dropped unjoined. -/
theorem spawn_and_join_group_joins_all (count : Nat) (w : Workload) :
    (spawnGroup count w).length = count ∧
    (spawnGroup count w).map SpawnedUnit.id = List.range count ∧
    spawn_and_join_group count w =
      Except.ok ((spawnGroup count w).map fun u => runWorkload u.work) ∧
    ((spawnGroup count w).map fun u => runWorkload u.work).length = count := by
  have hid : SpawnedUnit.id ∘ spawnUnit w = id := by
    funext i; rfl
  have hwork : (fun u => runWorkload u.work) ∘ spawnUnit w = fun _ : Nat => runWorkload w := by
    funext i; rfl
  refine ⟨by simp [spawnGroup], ?_, ?_, by simp [spawnGroup]⟩
  · simp [spawnGroup, List.map_map, hid]
  · unfold spawn_and_join_group spawnGroup
    rw [joinAndUnwrapAll_map_spawnUnit]
    simp [List.map_map, hwork]

/-- C6: the mixed-workload benchmark body joins exactly
`compute_count + sleep_count` units — `NUM_THREADS_LARGE` compute-bound
plus `NUM_THREADS_HUGE` sleep-bound — in both the compute-first and the
sleep-first submission orderings, and both orderings join the same total
number of units. -/
theorem spawn_mixed_group_joins_all (c : Nat) :
    ∃ r1 r2 : List Nat,
      spawn_mixed_group (NUM_THREADS_LARGE c) (NUM_THREADS_HUGE c) true = Except.ok r1 ∧
      spawn_mixed_group (NUM_THREADS_LARGE c) (NUM_THREADS_HUGE c) false = Except.ok r2 ∧
      r1.length = NUM_THREADS_LARGE c + NUM_THREADS_HUGE c ∧
      r2.length = NUM_THREADS_LARGE c + NUM_THREADS_HUGE c ∧
      r1.length = r2.length := by
  refine ⟨(List.range (NUM_THREADS_LARGE c)).map (fun _ => runWorkload Workload.computeBound) ++
      (List.range (NUM_THREADS_HUGE c)).map (fun _ => runWorkload Workload.sleepBound),
    (List.range (NUM_THREADS_HUGE c)).map (fun _ => runWorkload Workload.sleepBound) ++
      (List.range (NUM_THREADS_LARGE c)).map (fun _ => runWorkload Workload.computeBound),
    ?_, ?_, by simp,
    by simp only [List.length_append, List.length_map, List.length_range]; omega,
    by simp only [List.length_append, List.length_map, List.length_range]; omega⟩
  · unfold spawn_mixed_group spawnGroup
    simp only [if_true]
    exact joinAndUnwrapAll_append _ _ _ _
      (joinAndUnwrapAll_map_spawnUnit Workload.computeBound _)
      (joinAndUnwrapAll_map_spawnUnit Workload.sleepBound _)
  · unfold spawn_mixed_group spawnGroup
    simp only [Bool.false_eq_true, if_false]
    exact joinAndUnwrapAll_append _ _ _ _
      (joinAndUnwrapAll_map_spawnUnit Workload.sleepBound _)
      (joinAndUnwrapAll_map_spawnUnit Workload.computeBound _)

/-- C7: if any spawned unit of a group terminated abnormally (its join
reports an error), the join-and-unwrap chain of the benchmark body
propagates that failure as an explicit error aborting the iteration — it
never returns a successful (zero/skipped) result list. -/
theorem join_failure_propagates (us : List SpawnedUnit)
    (h : ∃ u ∈ us, ∃ e, u.outcome = Except.error e) :
    ∃ e, joinAndUnwrapAll us = Except.error e := by
  induction us with
  | nil => simp at h
  | cons u rest ih =>
    cases hu : u.outcome with
    | error e => exact ⟨e, by rw [joinAndUnwrapAll, hu]⟩
    | ok v =>
      rcases h with ⟨x, hx, e, he⟩
      rcases List.mem_cons.mp hx with h1 | h2
      · rw [h1, hu] at he; cases he
      · obtain ⟨e3, he3⟩ := ih ⟨x, h2, e, he⟩
        exact ⟨e3, by rw [joinAndUnwrapAll, hu, he3]⟩

/-- C7 witness: a concrete two-unit group whose second unit panicked; the
join point reports the failure. -/
theorem join_failure_propagates_witness :
    ∃ e, joinAndUnwrapAll
      [⟨0, Workload.computeBound, Except.ok 5⟩,
       ⟨1, Workload.computeBound, Except.error "unit panicked"⟩] = Except.error e :=
  join_failure_propagates _
    ⟨⟨1, Workload.computeBound, Except.error "unit panicked"⟩, by simp, "unit panicked", rfl⟩

/-- `fibonacci` agrees with the reference recurrence written from the
claim. -/
theorem fibonacci_eq_fibSpec (n : Nat) : fibonacci n = fibSpec n := by
  induction n using Nat.strong_induction_on with
  | _ n ih =>
    cases n with
    | zero => rfl
    | succ m =>
      cases m with
      | zero => rfl
      | succ k =>
        show fibonacci (k + 2) = fibSpec (k + 2)
        simp only [fibonacci, fibSpec]
        rw [ih (k + 1) (by omega), ih k (by omega)]

/-- `fibonacci` is the shifted Mathlib Fibonacci function. -/
theorem fibonacci_eq_fib (n : Nat) : fibonacci n = Nat.fib (n + 1) := by
  induction n using Nat.strong_induction_on with
  | _ n ih =>
    cases n with
    | zero => rfl
    | succ m =>
      cases m with
      | zero => rfl
      | succ k =>
        show fibonacci (k + 2) = Nat.fib (k + 2 + 1)
        simp only [fibonacci]
        rw [ih (k + 1) (by omega), ih k (by omega)]
        have h : Nat.fib (k + 3) = Nat.fib (k + 1) + Nat.fib (k + 2) :=
          Nat.fib_add_two (n := k + 1)
        show Nat.fib (k + 2) + Nat.fib (k + 1) = Nat.fib (k + 3)
        rw [h]
        exact Nat.add_comm _ _

/-- C10: for every input `n` the compute-bound workload `fibonacci n`
equals the reference Fibonacci function `F(0) = 1`, `F(1) = 1`,
`F(n) = F(n-1) + F(n-2)`; in particular `fibonacci FIB_N = 1346269`, and
for every `n ≤ FIB_N = 30` the value fits in a `u64` (no overflow). -/
theorem fibonacci_correct :
    (∀ n : Nat, fibonacci n = fibSpec n) ∧
    fibonacci FIB_N = 1346269 ∧
    ∀ n : Fin (FIB_N + 1), fibonacci n.val < U64_MOD := by
  refine ⟨fibonacci_eq_fibSpec, ?_, ?_⟩
  · rw [show FIB_N = 30 from rfl, fibonacci_eq_fib]
    decide
  · intro n
    have hn : n.val < 31 := by
      have h31 : n.val < FIB_N + 1 := n.isLt
      unfold FIB_N at h31
      omega
    rw [fibonacci_eq_fib]
    calc Nat.fib (n.val + 1) ≤ Nat.fib 31 := Nat.fib_mono (by omega)
      _ < U64_MOD := by decide

/-- Running the measurement loop for `n` iterations under monotone
timestamps (every delta at least 1) and no accumulator overflow performs
exactly `2 * n` timestamp reads and accumulates the exact sum of the
per-iteration deltas. -/
theorem mainLoop_eq (tsc : Nat → Nat) (n : Nat)
    (h1 : ∀ i, i < n → tsc (2 * i) % U64_MOD < tsc (2 * i + 1) % U64_MOD)
    (h2 : totalSum tsc n < U64_MOD) :
    mainLoop tsc n = (2 * n, some (totalSum tsc n)) := by
  induction n with
  | zero => simp [mainLoop, totalSum]
  | succ n ih =>
    have hsum : totalSum tsc (n + 1) =
        totalSum tsc n + (tsc (2 * n + 1) % U64_MOD - tsc (2 * n) % U64_MOD) := by
      unfold totalSum
      rw [Finset.sum_range_succ]
    have hlt : totalSum tsc n < U64_MOD := by omega
    have ihh := ih (fun i hi => h1 i (by omega)) hlt
    have hd : measuredDelta tsc n =
        some (tsc (2 * n + 1) % U64_MOD - tsc (2 * n) % U64_MOD) := by
      unfold measuredDelta u64_checked_sub serialized_time
      simp [Nat.le_of_lt (h1 n (by omega))]
    have hadd : u64_checked_add (totalSum tsc n)
        (tsc (2 * n + 1) % U64_MOD - tsc (2 * n) % U64_MOD) =
        some (totalSum tsc (n + 1)) := by
      unfold u64_checked_add
      rw [if_pos (by omega)]
      rw [hsum]
    rw [mainLoop, ihh]
    simp only [hd, hadd]
    refine Prod.ext ?_ rfl
    omega

/-- C9: the entry point loops exactly `NUM_RUNS = 100000` times
(performing two timestamp reads per iteration); with pinning successful,
monotone timestamps whose per-iteration delta is at least 1, and no `u64`
accumulator overflow, it prints the total accumulated cycle delta and a
mean equal to the total divided by `NUM_RUNS` by truncating unsigned
division, and the printed mean is a positive integer. -/
theorem main_prints_total_and_positive_mean (tsc : Nat → Nat)
    (h1 : ∀ i, i < NUM_RUNS → tsc (2 * i) % U64_MOD < tsc (2 * i + 1) % U64_MOD)
    (h2 : totalSum tsc NUM_RUNS < U64_MOD) :
    NUM_RUNS = 100000 ∧
    main_model true tsc =
      (Except.ok ⟨totalSum tsc NUM_RUNS, totalSum tsc NUM_RUNS / NUM_RUNS⟩,
        2 * NUM_RUNS) ∧
    1 ≤ totalSum tsc NUM_RUNS / NUM_RUNS := by
  refine ⟨rfl, ?_, ?_⟩
  · unfold main_model
    rw [mainLoop_eq tsc NUM_RUNS h1 h2]
    rfl
  · have hge : NUM_RUNS ≤ totalSum tsc NUM_RUNS := by
      unfold totalSum
      calc NUM_RUNS = Finset.sum (Finset.range NUM_RUNS) fun _ => 1 := by simp
        _ ≤ _ := Finset.sum_le_sum fun i hi => by
            have hlt := h1 i (Finset.mem_range.mp hi)
            omega
    exact (Nat.one_le_div_iff (by decide)).mpr hge

/-- C9 witness: with the concrete counter environment `tsc k = k`, every
per-iteration delta is 1 and the hypotheses hold, so `main` prints the
total and a positive mean. -/
theorem main_prints_total_and_positive_mean_witness :
    NUM_RUNS = 100000 ∧
    main_model true (fun k => k) =
      (Except.ok ⟨totalSum (fun k => k) NUM_RUNS,
        totalSum (fun k => k) NUM_RUNS / NUM_RUNS⟩, 2 * NUM_RUNS) ∧
    1 ≤ totalSum (fun k => k) NUM_RUNS / NUM_RUNS := by
  have hU : (200001 : Nat) ≤ U64_MOD := by
    unfold U64_MOD
    decide
  apply main_prints_total_and_positive_mean
  · intro i hi
    have hiN : i < 100000 := by
      unfold NUM_RUNS at hi
      omega
    show 2 * i % U64_MOD < (2 * i + 1) % U64_MOD
    rw [Nat.mod_eq_of_lt (by omega), Nat.mod_eq_of_lt (by omega)]
    omega
  · have hone : ∀ i ∈ Finset.range NUM_RUNS,
        (fun k => k) (2 * i + 1) % U64_MOD - (fun k => k) (2 * i) % U64_MOD = 1 := by
      intro i hi
      have hiN : i < 100000 := by
        have hm := Finset.mem_range.mp hi
        unfold NUM_RUNS at hm
        omega
      show (2 * i + 1) % U64_MOD - 2 * i % U64_MOD = 1
      rw [Nat.mod_eq_of_lt (by omega), Nat.mod_eq_of_lt (by omega)]
      omega
    unfold totalSum
    rw [Finset.sum_congr rfl hone]
    simp only [Finset.sum_const, Finset.card_range, smul_eq_mul, mul_one]
    unfold NUM_RUNS
    omega
